import Mathlib

/-!
Verification of the KIConstraint constraint-construction pipeline.

This development shallowly embeds the Python sources of the plugin
(`mapping/graphics.py`, `mapping/pads.py`, `dimensions.py`,
`solver/sketch.py`, `solver/constraints.py`) as Lean definitions and
proves the specification's claims about them.

Modelling conventions:
- KiCad integer nanometre coordinates are modelled as real numbers
  (`Vector2` below); millimetre conversion divides by 1,000,000 exactly
  as `_to_mm` does in `mapping/_common.py`.
- Python floats are modelled as real numbers; `math.hypot`, `math.atan2`
  and the float modulo operator get explicit real definitions.
- Solver state (the sketch) is threaded explicitly: every operation of
  `Sketch` returns the updated sketch together with the created entity
  or constraint, mirroring the mutation order of the Python code.
- Python exceptions become `Except` results; where the Python code
  mutates state before an exception propagates, functions return the
  updated state alongside the error, so that partial mutation is
  observable.
- Each `*Source` structure carries a `rest` field standing for all the
  source-object attributes the mapped writeback never touches.
-/

open scoped Classical

/-- Real-valued model of `math.hypot`: the euclidean norm of `(x, y)`. -/
noncomputable def hypot (x y : ℝ) : ℝ := Real.sqrt (x ^ 2 + y ^ 2)

/-- Real-valued model of `math.atan2 y x` (the C library convention). -/
noncomputable def atan2 (y x : ℝ) : ℝ :=
  if 0 < x then Real.arctan (y / x)
  else if x < 0 then
    (if 0 ≤ y then Real.arctan (y / x) + Real.pi else Real.arctan (y / x) - Real.pi)
  else if 0 < y then Real.pi / 2
  else if y < 0 then -(Real.pi / 2)
  else 0

/-- Python's float modulo `a % b`: for `b > 0` the result lies in `[0, b)`.
It equals `a - b * floor (a / b)`. -/
noncomputable def fmod (a b : ℝ) : ℝ := a - b * ↑⌊a / b⌋

/-- A kipy `Vector2`: a 2D vector in integer nanometres, modelled over ℝ. -/
structure Vector2 where
  x : ℝ
  y : ℝ

/-- `Vector2.from_xy_mm`: build a nanometre vector from millimetre values
(1 mm = 1,000,000 nm, from `_NM_PER_MM` in `mapping/_common.py`). -/
noncomputable def Vector2.from_xy_mm (x y : ℝ) : Vector2 := ⟨x * 1000000, y * 1000000⟩

/-- `_to_mm` from `mapping/_common.py`: nanometres to millimetres. -/
noncomputable def _to_mm (nm : ℝ) : ℝ := nm / 1000000

/-! ## Solver facade (`solver/entities.py`, `solver/sketch.py`) -/

/-- A solver 2D point: entity handle plus current parameter values in mm. -/
structure SPoint where
  handle : ℕ
  u : ℝ
  v : ℝ

/-- A solver line segment: handle plus its two endpoint points. -/
structure SLine where
  handle : ℕ
  p1 : SPoint
  p2 : SPoint

/-- A solver circle: handle, center point and scalar radius variable. -/
structure SCircle where
  handle : ℕ
  center : SPoint
  radius : ℝ

/-- A solver arc: handle plus center, start and end points. -/
structure SArc where
  handle : ℕ
  center : SPoint
  start : SPoint
  «end» : SPoint

/-- A solver cubic Bézier: handle plus four control points. -/
structure SCubic where
  handle : ℕ
  p1 : SPoint
  p2 : SPoint
  p3 : SPoint
  p4 : SPoint

/-- Semantic record of a constraint added to the solver, identified by the
handles of the entities it constrains (the `slvs.*` calls in
`solver/sketch.py`). -/
inductive SCon where
  | dragged (p : ℕ)
  | coincident (a b : ℕ)
  | distance (a b : ℕ) (value : ℝ)
  | distanceProj (a b : ℕ) (axis : ℕ) (value : ℝ)
  | horizontal (l : ℕ)
  | vertical (l : ℕ)
  | parallel (a b : ℕ)
  | perpendicular (a b : ℕ)
  | equal (a b : ℕ)
  | midpoint (p l : ℕ)

/-- The sketch: the solver's user-group state.  `nextHandle` models the
solver's handle allocation; `cons` is the list of constraints added so
far, in order. -/
structure Sketch where
  nextHandle : ℕ
  cons : List SCon

/-- Append a constraint to the sketch and return it (the common tail of
every constraint method in `solver/sketch.py`). -/
def Sketch.addCon (s : Sketch) (c : SCon) : Sketch × SCon :=
  ({ s with cons := s.cons ++ [c] }, c)

/-- `Sketch.point`: create a 2D point; if `fixed` also emit a `dragged`
constraint pinning its parameters. -/
def Sketch.point (s : Sketch) (u v : ℝ) (fixed : Bool) : Sketch × SPoint :=
  let p : SPoint := ⟨s.nextHandle, u, v⟩
  let s1 : Sketch := { s with nextHandle := s.nextHandle + 1 }
  if fixed then ((s1.addCon (.dragged p.handle)).1, p) else (s1, p)

/-- `Sketch.line`: create a line entity between two points. -/
def Sketch.line (s : Sketch) (p1 p2 : SPoint) : Sketch × SLine :=
  ({ s with nextHandle := s.nextHandle + 1 }, ⟨s.nextHandle, p1, p2⟩)

/-- `Sketch.circle`: create a circle entity with a scalar radius. -/
def Sketch.circle (s : Sketch) (center : SPoint) (radius_value : ℝ) :
    Sketch × SCircle :=
  ({ s with nextHandle := s.nextHandle + 1 }, ⟨s.nextHandle, center, radius_value⟩)

/-- `Sketch.arc`: create an arc entity from center, start and end points. -/
def Sketch.arc (s : Sketch) (center start «end» : SPoint) : Sketch × SArc :=
  ({ s with nextHandle := s.nextHandle + 1 }, ⟨s.nextHandle, center, start, «end»⟩)

/-- `Sketch.cubic`: create a cubic entity from four control points. -/
def Sketch.cubic (s : Sketch) (p1 p2 p3 p4 : SPoint) : Sketch × SCubic :=
  ({ s with nextHandle := s.nextHandle + 1 }, ⟨s.nextHandle, p1, p2, p3, p4⟩)

/-- `Sketch.dragged`: pin a point's parameters to their current values. -/
def Sketch.dragged (s : Sketch) (p : SPoint) : Sketch × SCon :=
  s.addCon (.dragged p.handle)

/-- `Sketch.coincident`. -/
def Sketch.coincident (s : Sketch) (a b : SPoint) : Sketch × SCon :=
  s.addCon (.coincident a.handle b.handle)

/-- `Sketch.distance`: point-point euclidean distance constraint. -/
def Sketch.distance (s : Sketch) (a b : SPoint) (value : ℝ) : Sketch × SCon :=
  s.addCon (.distance a.handle b.handle value)

/-- `Sketch.distance_proj`: signed projected distance onto an axis line. -/
def Sketch.distance_proj (s : Sketch) (a b : SPoint) (axis : SLine) (value : ℝ) :
    Sketch × SCon :=
  s.addCon (.distanceProj a.handle b.handle axis.handle value)

/-- `Sketch.horizontal`. -/
def Sketch.horizontal (s : Sketch) (l : SLine) : Sketch × SCon :=
  s.addCon (.horizontal l.handle)

/-- `Sketch.vertical`. -/
def Sketch.vertical (s : Sketch) (l : SLine) : Sketch × SCon :=
  s.addCon (.vertical l.handle)

/-- `Sketch.parallel`. -/
def Sketch.parallel (s : Sketch) (a b : SLine) : Sketch × SCon :=
  s.addCon (.parallel a.handle b.handle)

/-- `Sketch.perpendicular` (the `inverse` flag defaults to false and is
never passed by the pipeline, so it is omitted). -/
def Sketch.perpendicular (s : Sketch) (a b : SLine) : Sketch × SCon :=
  s.addCon (.perpendicular a.handle b.handle)

/-- `Sketch.equal`. -/
def Sketch.equal (s : Sketch) (a b : SLine) : Sketch × SCon :=
  s.addCon (.equal a.handle b.handle)

/-- `Sketch.midpoint`: `p` is the midpoint of line `l`. -/
def Sketch.midpoint (s : Sketch) (p : SPoint) (l : SLine) : Sketch × SCon :=
  s.addCon (.midpoint p.handle l.handle)

/-! ## Solve results (`solver/constraints.py`) -/

/-- The `slvs.ResultFlag` enumeration of the underlying solver. -/
inductive ResultFlag where
  | OKAY
  | INCONSISTENT
  | DIDNT_CONVERGE
  | TOO_MANY_UNKNOWNS
  | REDUNDANT_OKAY
deriving DecidableEq

/-- `SolveResult`: wrapper around the raw solve result. -/
structure SolveResult where
  result : ResultFlag
  dof : ℤ

/-- `SolveResult.ok`: true iff the raw result is `OKAY` or `REDUNDANT_OKAY`. -/
def SolveResult.ok (r : SolveResult) : Bool :=
  match r.result with
  | .OKAY => true
  | .REDUNDANT_OKAY => true
  | _ => false

/-- `SolveResult.result_code`: the raw result, exposed for diagnostics. -/
def SolveResult.result_code (r : SolveResult) : ResultFlag := r.result

/-! ## Graphic shape sources and mapped shapes (`mapping/graphics.py`) -/

/-- Convert a solver point to a kipy vector (`_v2` in `mapping/_common.py`). -/
noncomputable def _v2 (p : SPoint) : Vector2 := Vector2.from_xy_mm p.u p.v

/-- Source `kipy.common_types.Segment`. -/
structure SegSource where
  start : Vector2
  «end» : Vector2
  rest : ℕ

/-- Source `kipy.common_types.Arc` (start / mid / end parameterisation). -/
structure ArcSource where
  start : Vector2
  mid : Vector2
  «end» : Vector2
  rest : ℕ

/-- Source `kipy.common_types.Circle`. -/
structure CircSource where
  center : Vector2
  radius_point : Vector2
  rest : ℕ

/-- Source `kipy.common_types.Rectangle`. -/
structure RectSource where
  top_left : Vector2
  bottom_right : Vector2
  rest : ℕ

/-- Source `kipy.common_types.Bezier`. -/
structure BezSource where
  start : Vector2
  control1 : Vector2
  control2 : Vector2
  «end» : Vector2
  rest : ℕ

/-- `MappedSegment`. -/
structure MappedSegment where
  source : SegSource
  start : SPoint
  «end» : SPoint
  line : SLine

/-- `MappedSegment.write_back`: start and end back onto the source. -/
noncomputable def MappedSegment.write_back (m : MappedSegment) : SegSource :=
  { m.source with start := _v2 m.start, «end» := _v2 m.«end» }

/-- `MappedArc`. -/
structure MappedArc where
  source : ArcSource
  center : SPoint
  start : SPoint
  «end» : SPoint
  arc : SArc

/-- `MappedArc.write_back` from `mapping/graphics.py` lines 71-83: writes
start and end, then reconstructs `mid` from the solved coordinates by the
counter-clockwise sweep construction. -/
noncomputable def MappedArc.write_back (m : MappedArc) : ArcSource :=
  let cx := m.center.u
  let cy := m.center.v
  let sa := atan2 (m.start.v - cy) (m.start.u - cx)
  let ea := atan2 (m.«end».v - cy) (m.«end».u - cx)
  let sweep := fmod (ea - sa) (2 * Real.pi)
  let mid_angle := sa + sweep / 2
  let radius := hypot (m.start.u - cx) (m.start.v - cy)
  { m.source with
      start := _v2 m.start
      «end» := _v2 m.«end»
      mid := Vector2.from_xy_mm (cx + radius * Real.cos mid_angle)
               (cy + radius * Real.sin mid_angle) }

/-- `MappedCircle`. -/
structure MappedCircle where
  source : CircSource
  center : SPoint
  circle : SCircle

/-- `MappedCircle.write_back`. -/
noncomputable def MappedCircle.write_back (m : MappedCircle) : CircSource :=
  { m.source with
      center := _v2 m.center
      radius_point := Vector2.from_xy_mm (m.center.u + m.circle.radius) m.center.v }

/-- `MappedRectangle`. -/
structure MappedRectangle where
  source : RectSource
  top_left : SPoint
  top_right : SPoint
  bottom_right : SPoint
  bottom_left : SPoint
  top : SLine
  right : SLine
  bottom : SLine
  left : SLine
  constraints : List SCon

/-- `MappedRectangle.create` from `mapping/graphics.py` lines 136-162:
four corner points in canonical order, four edge lines, and the three
intrinsic perpendicular constraints. -/
noncomputable def MappedRectangle.create (s : Sketch) (rect : RectSource) :
    Sketch × MappedRectangle :=
  let tl_x := _to_mm rect.top_left.x
  let tl_y := _to_mm rect.top_left.y
  let br_x := _to_mm rect.bottom_right.x
  let br_y := _to_mm rect.bottom_right.y
  let r1 := s.point tl_x tl_y false
  let tl := r1.2
  let r2 := r1.1.point br_x tl_y false
  let tr := r2.2
  let r3 := r2.1.point br_x br_y false
  let br := r3.2
  let r4 := r3.1.point tl_x br_y false
  let bl := r4.2
  let r5 := r4.1.line tl tr
  let top := r5.2
  let r6 := r5.1.line tr br
  let right := r6.2
  let r7 := r6.1.line br bl
  let bottom := r7.2
  let r8 := r7.1.line bl tl
  let left := r8.2
  let r9 := r8.1.perpendicular top right
  let r10 := r9.1.perpendicular right bottom
  let r11 := r10.1.perpendicular bottom left
  (r11.1,
   { source := rect
     top_left := tl, top_right := tr, bottom_right := br, bottom_left := bl
     top := top, right := right, bottom := bottom, left := left
     constraints := [r9.2, r10.2, r11.2] })

/-- `MappedRectangle.write_back`: only `top_left` and `bottom_right`. -/
noncomputable def MappedRectangle.write_back (m : MappedRectangle) : RectSource :=
  { m.source with
      top_left := _v2 m.top_left
      bottom_right := _v2 m.bottom_right }

/-- `MappedBezier`. -/
structure MappedBezier where
  source : BezSource
  start : SPoint
  control1 : SPoint
  control2 : SPoint
  «end» : SPoint
  cubic : SCubic

/-- `MappedBezier.write_back`: all four control points. -/
noncomputable def MappedBezier.write_back (m : MappedBezier) : BezSource :=
  { m.source with
      start := _v2 m.start
      control1 := _v2 m.control1
      control2 := _v2 m.control2
      «end» := _v2 m.«end» }

/-- The union `MappedShape` of the five mapped graphic shapes. -/
inductive MappedShape where
  | segment (m : MappedSegment)
  | arc (m : MappedArc)
  | circle (m : MappedCircle)
  | rectangle (m : MappedRectangle)
  | bezier (m : MappedBezier)

/-- The union of the five source graphic shapes (`kipy.common_types`). -/
inductive KiShape where
  | segment (s : SegSource)
  | arc (a : ArcSource)
  | circle (c : CircSource)
  | rectangle (r : RectSource)
  | bezier (b : BezSource)

/-- The source primitive currently held by a mapped shape. -/
def MappedShape.source : MappedShape → KiShape
  | .segment m => .segment m.source
  | .arc m => .arc m.source
  | .circle m => .circle m.source
  | .rectangle m => .rectangle m.source
  | .bezier m => .bezier m.source

/-- The effect of `m.write_back()`: the same mapped shape with its stored
source mutated to the written-back value. -/
noncomputable def MappedShape.writeBackShape : MappedShape → MappedShape
  | .segment m => .segment { m with source := m.write_back }
  | .arc m => .arc { m with source := m.write_back }
  | .circle m => .circle { m with source := m.write_back }
  | .rectangle m => .rectangle { m with source := m.write_back }
  | .bezier m => .bezier { m with source := m.write_back }

/-- The error raised by `write_back_shapes` when the solve was not ok
(a `ValueError` carrying the result code in the Python code; the spec
calls it `SolveNotSuccessful`). -/
inductive WriteBackErr where
  | solveNotSuccessful (code : ResultFlag)
deriving DecidableEq

/-- `write_back_shapes` from `mapping/graphics.py` lines 236-256.  The
first component is the final state of the mapped shapes (their sources
after any mutation); the second is the returned source list, or the
error.  When the solve is not ok the error is raised before any
`write_back` call, so the shapes are returned unchanged. -/
noncomputable def write_back_shapes (mapped : List MappedShape) (result : SolveResult) :
    List MappedShape × Except WriteBackErr (List KiShape) :=
  if result.ok = false then
    (mapped, .error (.solveNotSuccessful result.result_code))
  else
    let mapped1 := mapped.map MappedShape.writeBackShape
    (mapped1, .ok (mapped1.map MappedShape.source))

/-! ## Pad trapezoid layer (`mapping/pads.py`) -/

/-- The pad-stack-layer fields the trapezoid writeback touches. -/
structure TrapSource where
  size : Vector2
  trapezoid_delta : Vector2
  rest : ℕ

/-- `MappedPadTrapezoid` (entities only; the intrinsic constraints are
irrelevant to the writeback claim). -/
structure MappedPadTrapezoid where
  source : TrapSource
  center : SPoint
  tl : SPoint
  tr : SPoint
  br : SPoint
  bl : SPoint
  top : SLine
  right : SLine
  bottom : SLine
  left : SLine
  midpoint_a : SPoint
  midpoint_b : SPoint
  construction : SLine
  constraints : List SCon

/-- `MappedPadTrapezoid.write_back` from `mapping/pads.py` lines 184-219. -/
noncomputable def MappedPadTrapezoid.write_back (m : MappedPadTrapezoid) : TrapSource :=
  let construction_len :=
    hypot (m.midpoint_b.u - m.midpoint_a.u) (m.midpoint_b.v - m.midpoint_a.v)
  let left_len := hypot (m.bl.u - m.tl.u) (m.bl.v - m.tl.v)
  let right_len := hypot (m.br.u - m.tr.u) (m.br.v - m.tr.v)
  let top_len := hypot (m.tr.u - m.tl.u) (m.tr.v - m.tl.v)
  let bottom_len := hypot (m.br.u - m.bl.u) (m.br.v - m.bl.v)
  let original_delta := m.source.trapezoid_delta
  if original_delta.x ≠ 0 ∨ original_delta.y = 0 then
    { m.source with
        size := Vector2.from_xy_mm construction_len ((left_len + right_len) / 2)
        trapezoid_delta := Vector2.from_xy_mm ((right_len - left_len) / 2) 0 }
  else
    { m.source with
        size := Vector2.from_xy_mm ((top_len + bottom_len) / 2) construction_len
        trapezoid_delta := Vector2.from_xy_mm 0 ((top_len - bottom_len) / 2) }

/-! ## Theorems for the writeback claims -/

/-- C1: for every mapped arc, `write_back` writes the solved start and end
to the source and reconstructs `mid` as the claim states: with `c` the
solved center, `start_angle = atan2 (start - c)`,
`sweep = (atan2 (end - c) - atan2 (start - c)) mod 2π`,
`mid_angle = start_angle + sweep / 2`, `radius = |start - center|`, and
`mid = center + (radius * cos mid_angle, radius * sin mid_angle)`. -/
theorem arc_write_back_reconstructs_mid (m : MappedArc) :
    MappedArc.write_back m =
      { m.source with
          start := _v2 m.start
          «end» := _v2 m.«end»
          mid :=
            Vector2.from_xy_mm
              (m.center.u +
                hypot (m.start.u - m.center.u) (m.start.v - m.center.v) *
                  Real.cos
                    (atan2 (m.start.v - m.center.v) (m.start.u - m.center.u) +
                      fmod
                        (atan2 (m.«end».v - m.center.v) (m.«end».u - m.center.u) -
                          atan2 (m.start.v - m.center.v) (m.start.u - m.center.u))
                        (2 * Real.pi) / 2))
              (m.center.v +
                hypot (m.start.u - m.center.u) (m.start.v - m.center.v) *
                  Real.sin
                    (atan2 (m.start.v - m.center.v) (m.start.u - m.center.u) +
                      fmod
                        (atan2 (m.«end».v - m.center.v) (m.«end».u - m.center.u) -
                          atan2 (m.start.v - m.center.v) (m.start.u - m.center.u))
                        (2 * Real.pi) / 2)) } := rfl

/-- C2: the trapezoid layer writeback computes `construction_len` and the
four edge lengths from the solved coordinates and branches on the original
delta satisfying `delta.x ≠ 0 ∨ delta.y = 0`: in the first case
`size = (construction_len, (left+right)/2)` and
`trapezoid_delta = ((right-left)/2, 0)`; otherwise
`size = ((top+bottom)/2, construction_len)` and
`trapezoid_delta = (0, (top-bottom)/2)`. -/
theorem trapezoid_write_back_formula (m : MappedPadTrapezoid) :
    MappedPadTrapezoid.write_back m =
      if m.source.trapezoid_delta.x ≠ 0 ∨ m.source.trapezoid_delta.y = 0 then
        { m.source with
            size :=
              Vector2.from_xy_mm
                (hypot (m.midpoint_b.u - m.midpoint_a.u) (m.midpoint_b.v - m.midpoint_a.v))
                ((hypot (m.bl.u - m.tl.u) (m.bl.v - m.tl.v) +
                    hypot (m.br.u - m.tr.u) (m.br.v - m.tr.v)) / 2)
            trapezoid_delta :=
              Vector2.from_xy_mm
                ((hypot (m.br.u - m.tr.u) (m.br.v - m.tr.v) -
                    hypot (m.bl.u - m.tl.u) (m.bl.v - m.tl.v)) / 2) 0 }
      else
        { m.source with
            size :=
              Vector2.from_xy_mm
                ((hypot (m.tr.u - m.tl.u) (m.tr.v - m.tl.v) +
                    hypot (m.br.u - m.bl.u) (m.br.v - m.bl.v)) / 2)
                (hypot (m.midpoint_b.u - m.midpoint_a.u) (m.midpoint_b.v - m.midpoint_a.v))
            trapezoid_delta :=
              Vector2.from_xy_mm 0
                ((hypot (m.tr.u - m.tl.u) (m.tr.v - m.tl.v) -
                    hypot (m.br.u - m.bl.u) (m.br.v - m.bl.v)) / 2) } := rfl

/-- C4: `write_back_shapes` fails with `SolveNotSuccessful` and mutates no
source when the result is not ok, and otherwise invokes `write_back` on
every mapped shape, returning the source primitives in input order; and
`ok` is true iff the raw result code is `OKAY` or `REDUNDANT_OKAY`. -/
theorem write_back_shapes_ok_gate (mapped : List MappedShape) (result : SolveResult) :
    (write_back_shapes mapped result =
      if result.ok then
        (mapped.map MappedShape.writeBackShape,
         Except.ok ((mapped.map MappedShape.writeBackShape).map MappedShape.source))
      else
        (mapped, Except.error (WriteBackErr.solveNotSuccessful result.result_code))) ∧
    (result.ok = true ↔
      result.result = ResultFlag.OKAY ∨ result.result = ResultFlag.REDUNDANT_OKAY) := by
  constructor
  · unfold write_back_shapes
    cases h : result.ok <;> simp [h]
  · unfold SolveResult.ok
    cases h : result.result <;> simp [h]

/-- C5: mapping a graphic rectangle creates the four corner points with
`tr.u = br.u`, `tl.u = bl.u`, `tl.v = tr.v`, `bl.v = br.v` at creation,
the four edge lines `top = (tl, tr)`, `right = (tr, br)`,
`bottom = (br, bl)`, `left = (bl, tl)`, and exactly the three intrinsic
perpendicular constraints top ⊥ right, right ⊥ bottom, bottom ⊥ left (the
sketch gains no other constraint); writeback writes only
`top_left ← tl` and `bottom_right ← br`, leaving the other source fields
unchanged. -/
theorem rectangle_create_and_write_back (s : Sketch) (rect : RectSource) :
    (((MappedRectangle.create s rect).2.top_right.u =
        (MappedRectangle.create s rect).2.bottom_right.u) ∧
     ((MappedRectangle.create s rect).2.top_left.u =
        (MappedRectangle.create s rect).2.bottom_left.u) ∧
     ((MappedRectangle.create s rect).2.top_left.v =
        (MappedRectangle.create s rect).2.top_right.v) ∧
     ((MappedRectangle.create s rect).2.bottom_left.v =
        (MappedRectangle.create s rect).2.bottom_right.v)) ∧
    ((MappedRectangle.create s rect).2.top.p1 = (MappedRectangle.create s rect).2.top_left ∧
     (MappedRectangle.create s rect).2.top.p2 = (MappedRectangle.create s rect).2.top_right ∧
     (MappedRectangle.create s rect).2.right.p1 = (MappedRectangle.create s rect).2.top_right ∧
     (MappedRectangle.create s rect).2.right.p2 = (MappedRectangle.create s rect).2.bottom_right ∧
     (MappedRectangle.create s rect).2.bottom.p1 = (MappedRectangle.create s rect).2.bottom_right ∧
     (MappedRectangle.create s rect).2.bottom.p2 = (MappedRectangle.create s rect).2.bottom_left ∧
     (MappedRectangle.create s rect).2.left.p1 = (MappedRectangle.create s rect).2.bottom_left ∧
     (MappedRectangle.create s rect).2.left.p2 = (MappedRectangle.create s rect).2.top_left) ∧
    ((MappedRectangle.create s rect).2.constraints =
      [SCon.perpendicular (MappedRectangle.create s rect).2.top.handle
         (MappedRectangle.create s rect).2.right.handle,
       SCon.perpendicular (MappedRectangle.create s rect).2.right.handle
         (MappedRectangle.create s rect).2.bottom.handle,
       SCon.perpendicular (MappedRectangle.create s rect).2.bottom.handle
         (MappedRectangle.create s rect).2.left.handle]) ∧
    ((MappedRectangle.create s rect).1.cons =
      s.cons ++ (MappedRectangle.create s rect).2.constraints) ∧
    (∀ m : MappedRectangle,
      m.write_back =
        { m.source with top_left := _v2 m.top_left, bottom_right := _v2 m.bottom_right }) := by
  refine ⟨⟨rfl, rfl, rfl, rfl⟩, ⟨rfl, rfl, rfl, rfl, rfl, rfl, rfl, rfl⟩, rfl, ?_, fun m => rfl⟩
  show (s.cons ++ [_] ++ [_] ++ [_]) = s.cons ++ [_, _, _]
  rw [List.append_assoc, List.append_assoc]
  rfl

/-! ## Python string primitives

The dimension code manipulates Python strings with `strip`, `split`,
`endswith` and slicing.  These are modelled over the character list of a
Lean `String` with structural recursion, so that concrete instances
evaluate by `rfl`/`decide`. -/

/-- Python `str.strip()` with no argument: drop whitespace from both ends. -/
def stripChars (l : List Char) : List Char :=
  ((l.dropWhile Char.isWhitespace).reverse.dropWhile Char.isWhitespace).reverse

/-- Python `str.strip()` lifted to `String`. -/
def pyStrip (s : String) : String := ⟨stripChars s.data⟩

/-- Helper for `str.split(sep)` with a one-character separator: splits at
every occurrence.  `acc` holds the current segment reversed. -/
def splitCharAux (sep : Char) : List Char → List Char → List (List Char)
  | [], acc => [acc.reverse]
  | c :: rest, acc =>
      if c = sep then acc.reverse :: splitCharAux sep rest []
      else splitCharAux sep rest (c :: acc)

/-- Python `s.split(sep)` for a one-character separator. -/
def pySplit (s : String) (sep : Char) : List String :=
  (splitCharAux sep s.data []).map fun l => ⟨l⟩

/-- Helper for `str.split(sep, 1)`: split at the first occurrence only. -/
def splitOnceAux (sep : Char) : List Char → List Char → List String
  | [], acc => [⟨acc.reverse⟩]
  | c :: rest, acc =>
      if c = sep then [⟨acc.reverse⟩, ⟨rest⟩]
      else splitOnceAux sep rest (c :: acc)

/-- Python `s.split(sep, 1)` for a one-character separator. -/
def pySplitOnce (s : String) (sep : Char) : List String :=
  splitOnceAux sep s.data []

/-- Python `s.endswith(c)` for a one-character suffix. -/
def pyEndsWith (s : String) (c : Char) : Bool :=
  match s.data.getLast? with
  | some d => d = c
  | none => false

/-- Python `s[:-1]`: drop the last character. -/
def pyDropLast (s : String) : String := ⟨s.data.dropLast⟩

/-! ## Dimensions (`dimensions.py`) -/

/-- The fields shared by `AlignedDimension` and `OrthogonalDimension`
(`kipy.board_types`): name prefix, constraint-suffix text, and the two
reference positions in nanometres.  The Python attribute `prefix` is named
`pfx` here because `prefix` is reserved in Lean. -/
structure DimCommon where
  pfx : String
  suffix : String
  start : Vector2
  «end» : Vector2

/-- The dimension variants the pipeline distinguishes via `isinstance`. -/
inductive Dim where
  | aligned (d : DimCommon)
  | orthogonal (d : DimCommon) (alignment : ℕ)
  | leader (override_text : String) (start : Vector2)
  | center (pfx : String) (suffix : String) (center : Vector2)
  | radial (pfx : String) (suffix : String)

/-- The `prefix` attribute of a non-leader dimension. -/
def Dim.pfxOf : Dim → String
  | .aligned d => d.pfx
  | .orthogonal d _ => d.pfx
  | .leader _ _ => ""
  | .center p _ _ => p
  | .radial p _ => p

/-- `_extract_name` from `dimensions.py` lines 84-91: leader dimensions
take the text before the first comma of `override_text`; other dimensions
take a `prefix` that ends in a colon, with the colon dropped and the rest
stripped. -/
def _extract_name (dim : Dim) : Option String :=
  match dim with
  | .leader t _ => some ((pySplit t ',').headD "")
  | d =>
      let p := d.pfxOf
      if pyEndsWith p ':' then some (pyStrip (pyDropLast p)) else none

/-- `_get_suffix` from `dimensions.py` lines 94-99: constraint text is the
part of a leader's `override_text` after the first comma, or the `suffix`
attribute otherwise. -/
def _get_suffix (dim : Dim) : String :=
  match dim with
  | .leader t _ =>
      match pySplitOnce t ',' with
      | [_, rest] => rest
      | _ => ""
  | .aligned d => d.suffix
  | .orthogonal d _ => d.suffix
  | .center _ sfx _ => sfx
  | .radial _ sfx => sfx

/-- `_find_point` from `dimensions.py` lines 75-81: the first point of
`all_points` within euclidean `tolerance` of `(u, v)`, or none. -/
noncomputable def _find_point (u v : ℝ) (all_points : List SPoint) (tolerance : ℝ) :
    Option SPoint :=
  match all_points with
  | [] => none
  | pt :: rest =>
      if hypot (pt.u - u) (pt.v - v) ≤ tolerance then some pt
      else _find_point u v rest tolerance

/-- Equality of `frozenset \x7ba, b\x7d` keys: the unordered pair `k` equals
the unordered pair `(a, b)`. -/
def keyMatch (k : ℕ × ℕ) (a b : ℕ) : Bool :=
  (k.1 = a ∧ k.2 = b) ∨ (k.1 = b ∧ k.2 = a)

/-- The `edge_index` dict: insertion-ordered entries keyed by unordered
endpoint-handle pairs. -/
def EdgeIndex : Type := List ((ℕ × ℕ) × SLine)

/-- Python dict assignment `edge_index[frozenset(\x7ba, b\x7d)] = l`: replace
the value of an existing equal key in place, else append. -/
def edgeInsert (idx : EdgeIndex) (a b : ℕ) (l : SLine) : EdgeIndex :=
  match idx with
  | [] => [((a, b), l)]
  | (k, l0) :: rest =>
      if keyMatch k a b then (k, l) :: rest
      else (k, l0) :: edgeInsert rest a b l

/-- Python dict lookup `edge_index.get(frozenset(\x7ba, b\x7d))`. -/
def edgeLookup (idx : EdgeIndex) (a b : ℕ) : Option SLine :=
  match idx with
  | [] => none
  | (k, l) :: rest => if keyMatch k a b then some l else edgeLookup rest a b

/-- Python dict assignment for string-keyed insertion-ordered dicts. -/
def dinsert {α : Type} (k : String) (v : α) : List (String × α) → List (String × α)
  | [] => [(k, v)]
  | (k0, v0) :: rest =>
      if k0 = k then (k0, v) :: rest else (k0, v0) :: dinsert k v rest

/-- Python dict lookup for string-keyed insertion-ordered dicts. -/
def dget {α : Type} (k : String) : List (String × α) → Option α
  | [] => none
  | (k0, v0) :: rest => if k0 = k then some v0 else dget k rest

/-- `MappedEdgeDimension`: a named dimension bound to a sketch line. -/
structure MappedEdgeDimension where
  source : Dim
  name : String
  line : SLine

/-- `MappedPointDimension`: a named dimension bound to a sketch point. -/
structure MappedPointDimension where
  source : Dim
  name : String
  point : SPoint

/-- `DimensionMapping`: the pass-1 registry. -/
structure DimensionMapping where
  edges : List (String × MappedEdgeDimension)
  points : List (String × MappedPointDimension)
  all_points : List SPoint
  edge_index : EdgeIndex

/-- The `points`/`lines` capability of a mapped geometry, as consumed by
`_build_lookup`. -/
structure MappedGeom where
  points : List SPoint
  lines : List SLine

/-- `_build_lookup` from `dimensions.py` lines 102-117: flatten all mapped
points in order and index every mapped line by its unordered endpoint
handles. -/
def _build_lookup (mapped : List MappedGeom) : List SPoint × EdgeIndex :=
  let all_points := (mapped.map MappedGeom.points).flatten
  let edge_index :=
    mapped.foldl
      (fun idx g =>
        g.lines.foldl (fun idx l => edgeInsert idx l.p1.handle l.p2.handle l) idx)
      []
  (all_points, edge_index)

/-- The binding step of `map_dimensions` (lines 152-196) for one
dimension: resolve the name, then register an edge or point entries
according to which reference positions resolve against `all_points`. -/
noncomputable def bindDimension (result : DimensionMapping) (tolerance : ℝ)
    (dim : Dim) : DimensionMapping :=
  match _extract_name dim with
  | none => result
  | some name =>
    match dim with
    | .aligned d | .orthogonal d _ =>
        let p_start :=
          _find_point (_to_mm d.start.x) (_to_mm d.start.y) result.all_points tolerance
        let p_end :=
          _find_point (_to_mm d.«end».x) (_to_mm d.«end».y) result.all_points tolerance
        match p_start, p_end with
        | some ps, some pe =>
            match edgeLookup result.edge_index ps.handle pe.handle with
            | some line =>
                { result with edges := dinsert name ⟨dim, name, line⟩ result.edges }
            | none =>
                { result with
                    points :=
                      dinsert (name ++ ":end") ⟨dim, name ++ ":end", pe⟩
                        (dinsert (name ++ ":start") ⟨dim, name ++ ":start", ps⟩
                          result.points) }
        | some ps, none =>
            { result with
                points := dinsert (name ++ ":start") ⟨dim, name ++ ":start", ps⟩ result.points }
        | none, some pe =>
            { result with
                points := dinsert (name ++ ":end") ⟨dim, name ++ ":end", pe⟩ result.points }
        | none, none => result
    | .leader _ startv =>
        match _find_point (_to_mm startv.x) (_to_mm startv.y) result.all_points tolerance with
        | some pt => { result with points := dinsert name ⟨dim, name, pt⟩ result.points }
        | none => result
    | _ => result

/-- `map_dimensions` from `dimensions.py` lines 125-197: build the lookup
tables, run the center-dimension pre-pass (new dragged sketch points
appended to `all_points`), then bind every dimension in order. -/
noncomputable def map_dimensions (sketch : Sketch) (dimensions : List Dim)
    (mapped : List MappedGeom) (tolerance : ℝ) : Sketch × DimensionMapping :=
  let lk := _build_lookup mapped
  let pre :=
    dimensions.foldl
      (fun (acc : Sketch × List SPoint) dim =>
        match dim with
        | .center _ _ c =>
            let r1 := acc.1.point (_to_mm c.x) (_to_mm c.y) false
            let r2 := r1.1.dragged r1.2
            (r2.1, acc.2 ++ [r1.2])
        | _ => acc)
      (sketch, lk.1)
  let start : DimensionMapping :=
    { edges := [], points := [], all_points := pre.2, edge_index := lk.2 }
  (pre.1, dimensions.foldl (fun r dim => bindDimension r tolerance dim) start)

/-- The property C3 claims of the binding step, written as the spec
states it: for an aligned/orthogonal dimension carrying data `d` that has
a name, the nanometre reference positions are converted to millimetres
and resolved in `all_points` within the tolerance; if both resolve and
the unordered handle pair is in `edge_index`, the dimension is registered
under `edges[name]` with that line and the point registry is untouched;
otherwise every endpoint that resolves is registered under
`points[name ++ ":start"]` / `points[name ++ ":end"]` and the edge
registry is untouched. -/
def alignedBindingSpec (r : DimensionMapping) (tol : ℝ) (dim : Dim)
    (d : DimCommon) : Prop :=
  match _extract_name dim with
  | none => bindDimension r tol dim = r
  | some name =>
    match _find_point (_to_mm d.start.x) (_to_mm d.start.y) r.all_points tol,
        _find_point (_to_mm d.«end».x) (_to_mm d.«end».y) r.all_points tol with
    | some ps, some pe =>
        match edgeLookup r.edge_index ps.handle pe.handle with
        | some line =>
            (bindDimension r tol dim).edges = dinsert name ⟨dim, name, line⟩ r.edges ∧
            (bindDimension r tol dim).points = r.points
        | none =>
            (bindDimension r tol dim).edges = r.edges ∧
            (bindDimension r tol dim).points =
              dinsert (name ++ ":end") ⟨dim, name ++ ":end", pe⟩
                (dinsert (name ++ ":start") ⟨dim, name ++ ":start", ps⟩ r.points)
    | some ps, none =>
        (bindDimension r tol dim).edges = r.edges ∧
        (bindDimension r tol dim).points =
          dinsert (name ++ ":start") ⟨dim, name ++ ":start", ps⟩ r.points
    | none, some pe =>
        (bindDimension r tol dim).edges = r.edges ∧
        (bindDimension r tol dim).points =
          dinsert (name ++ ":end") ⟨dim, name ++ ":end", pe⟩ r.points
    | none, none => bindDimension r tol dim = r

/-- C3: the registry-construction step of `map_dimensions` treats every
named aligned or orthogonal dimension exactly as the claim describes
(see `alignedBindingSpec`); `map_dimensions` itself is the fold of this
step over the input dimensions. -/
theorem map_dimensions_binding (r : DimensionMapping) (tol : ℝ) (d : DimCommon)
    (a : ℕ) :
    alignedBindingSpec r tol (.aligned d) d ∧
    alignedBindingSpec r tol (.orthogonal d a) d := by
  constructor <;>
  · unfold alignedBindingSpec bindDimension
    rcases h0 : _extract_name _ with _ | name
    · simp [h0]
    rcases h1 : _find_point (_to_mm d.start.x) (_to_mm d.start.y) r.all_points tol with _ | ps <;>
      rcases h2 : _find_point (_to_mm d.«end».x) (_to_mm d.«end».y) r.all_points tol with _ | pe <;>
        simp [h0, h1, h2]
    rcases h3 : edgeLookup r.edge_index ps.handle pe.handle with _ | line <;> simp [h3]

/-- The first segment produced by `splitCharAux` is the accumulator
followed by the characters before the first separator. -/
theorem splitCharAux_head (sep : Char) (l : List Char) :
    ∀ acc : List Char,
      (splitCharAux sep l acc).head? =
        some (acc.reverse ++ l.takeWhile (fun c => c != sep)) := by
  induction l with
  | nil => intro acc; simp [splitCharAux]
  | cons c rest ih =>
      intro acc
      by_cases h : c = sep
      · simp [splitCharAux, h, List.takeWhile]
      · have hb : (c != sep) = true := by simp [h]
        simp [splitCharAux, h, List.takeWhile, ih (c :: acc), hb]

/-- The first element of a Python single-character `split` is the text
before the first separator. -/
theorem pySplit_head (s : String) (sep : Char) :
    (pySplit s sep).headD "" = ⟨s.data.takeWhile (fun c => c != sep)⟩ := by
  unfold pySplit
  rw [List.headD_eq_head?_getD, List.head?_map, splitCharAux_head]
  rfl

/-- The name C7 claims for a leader dimension: the text before the first
comma of `override_text`, stripped of surrounding whitespace. -/
def leaderNameClaimed (t : String) : String :=
  pyStrip ((pySplitOnce t ',').headD "")

/-- C7 counterexample: for `override_text = " a ,h"` the code extracts
`" a "` (whitespace kept), while the claim requires the trimmed `"a"`. -/
theorem leader_name_not_trimmed_counterexample :
    _extract_name (Dim.leader " a ,h" ⟨0, 0⟩) = some " a " ∧
    leaderNameClaimed " a ,h" = "a" ∧
    (" a " : String) ≠ "a" :=
  ⟨rfl, rfl, by decide⟩

/-- C7 amended: the name extracted for a leader dimension is the portion
of `override_text` before the first comma, with no whitespace trimming. -/
theorem leader_name_amended (t : String) (st : Vector2) :
    _extract_name (.leader t st) =
      some ⟨t.data.takeWhile (fun c => c != ',')⟩ := by
  show some ((pySplit t ',').headD "") = _
  rw [pySplit_head]

/-! ## Suffix DSL (`dimensions.py` lines 256-407) -/

/-- The parsed constraint specifications (`ConstraintSpec` subclasses).
`distance` carries the parsed millimetre value as an exact rational;
`distanceProj` is only created by `apply_dimension_constraints`. -/
inductive ConstraintSpec where
  | distance (value_mm : ℚ)
  | distanceProj (value_mm : ℚ) (axis : SLine)
  | parallel (other : String)
  | perpendicular (other : String)
  | coincident (other : String)
  | vertical
  | horizontal
  | equal (other : String)
  | midpoint (other : String)

/-- The parse-error kinds of `_parse_token` (three distinct `ValueError`
messages in the Python code; the spec names them `EmptyToken`,
`UnknownConstraint` and `UnrecognizedToken`). -/
inductive ParseErr where
  | emptyToken
  | unknownConstraint (name : String)
  | unrecognizedToken (tok : String)
deriving DecidableEq

/-- Split a character list at its longest prefix satisfying `p`. -/
def spanList (p : Char → Bool) : List Char → List Char × List Char
  | [] => ([], [])
  | c :: rest =>
      if p c then
        let r := spanList p rest
        (c :: r.1, r.2)
      else ([], c :: rest)

/-- Decimal digit list to a natural number. -/
def digitsToNat (l : List Char) : ℕ :=
  l.foldl (fun n c => 10 * n + (c.toNat - '0'.toNat)) 0

/-- Match of `_DISTANCE_RE`, the anchored regex `=(\d+(?:\.\d+)?)mm`,
returning the numeric value of group 1. -/
def matchDistance (l : List Char) : Option ℚ :=
  match l with
  | '=' :: rest =>
      let ip := spanList Char.isDigit rest
      if ip.1.isEmpty then none
      else
        match ip.2 with
        | ['m', 'm'] => some (digitsToNat ip.1 : ℚ)
        | '.' :: r2 =>
            let fp := spanList Char.isDigit r2
            if fp.1.isEmpty then none
            else
              match fp.2 with
              | ['m', 'm'] =>
                  some ((digitsToNat ip.1 : ℚ) +
                    (digitsToNat fp.1 : ℚ) / ((10 : ℚ) ^ fp.1.length))
              | _ => none
        | _ => none
  | _ => none

/-- A Python `\w` word character (ASCII model). -/
def isWordChar (c : Char) : Bool := c.isAlphanum || c = '_'

/-- Match a list of the shape `arg ++ [closing paren]` where `arg`
contains no closing paren; returns `arg` (possibly empty). -/
def matchArgClose : List Char → Option (List Char)
  | [] => none
  | c :: rest =>
      match rest with
      | [] => if c = ')' then some [] else none
      | _ :: _ => if c = ')' then none else (matchArgClose rest).map fun a => c :: a

/-- Match of `_FUNC_RE`, the anchored regex `(\w+)\(([^)]+)\)`:
a nonempty word, an opening paren, a nonempty paren-free argument, and a
closing paren ending the token.  Returns (group 1, group 2). -/
def matchFunc (l : List Char) : Option (String × String) :=
  let w := spanList isWordChar l
  match w.2 with
  | '(' :: r2 =>
      if w.1.isEmpty then none
      else
        match matchArgClose r2 with
        | some arg => if arg.isEmpty then none else some (⟨w.1⟩, ⟨arg⟩)
        | none => none
  | _ => none

/-- The `_CONSTRUCTORS` table: function-token names to spec constructors
(the argument is already stripped, as in `cls(m.group(2).strip())`). -/
def mkConstructor (name arg : String) : Option ConstraintSpec :=
  if name = "p" ∨ name = "par" then some (.parallel arg)
  else if name = "x" ∨ name = "perp" then some (.perpendicular arg)
  else if name = "c" ∨ name = "coin" then some (.coincident arg)
  else if name = "e" ∨ name = "eq" then some (.equal arg)
  else if name = "m" ∨ name = "mid" then some (.midpoint arg)
  else none

/-- `_parse_token` from `dimensions.py` lines 379-400: strip, reject empty
tokens, then try the distance regex, the function regex (with constructor
lookup), the bare names, and finally fail as unrecognized. -/
def _parse_token (token : String) : Except ParseErr ConstraintSpec :=
  let tok := pyStrip token
  if tok.data.isEmpty then .error .emptyToken
  else
    match matchDistance tok.data with
    | some q => .ok (.distance q)
    | none =>
      match matchFunc tok.data with
      | some nm =>
          match mkConstructor nm.1 (pyStrip nm.2) with
          | some spec => .ok spec
          | none => .error (.unknownConstraint nm.1)
      | none =>
          if tok = "v" ∨ tok = "vert" then .ok .vertical
          else if tok = "h" ∨ tok = "horiz" then .ok .horizontal
          else .error (.unrecognizedToken tok)

/-- `parse_suffix` from `dimensions.py` lines 403-407: an empty or
whitespace-only suffix yields no specs; otherwise every comma-separated
token is parsed, failing on the first bad token. -/
def parse_suffix (suffix : String) : Except ParseErr (List ConstraintSpec) :=
  if (pyStrip suffix).data.isEmpty then .ok []
  else (pySplit suffix ',').mapM _parse_token

/-- C6: `parse_suffix` raises `EmptyToken` on `"v,,h"`,
`UnknownConstraint` on `"foo(bar)"`, `UnrecognizedToken` on `"bogus"`,
and parses any empty or whitespace-only suffix to the empty spec list. -/
theorem parse_suffix_errors :
    parse_suffix "v,,h" = .error .emptyToken ∧
    parse_suffix "foo(bar)" = .error (.unknownConstraint "foo") ∧
    parse_suffix "bogus" = .error (.unrecognizedToken "bogus") ∧
    ∀ s : String, pyStrip s = "" → parse_suffix s = .ok [] := by
  refine ⟨rfl, rfl, rfl, fun s h => ?_⟩
  unfold parse_suffix
  rw [h]
  rfl

/-- C6 witness: the whitespace-only suffix `"  "` strips to empty and
parses to the empty list. -/
theorem parse_suffix_errors_witness :
    pyStrip "  " = "" ∧ parse_suffix "  " = .ok [] :=
  ⟨rfl, parse_suffix_errors.2.2.2 "  " rfl⟩

/-! ## Constraint application (`dimensions.py` lines 205-522) -/

/-- The application-time error kinds: the `WrongContext` default methods
of `ConstraintSpec`, the `UnknownReference` resolution failures, and
parse errors surfacing from `parse_suffix`. -/
inductive AppErr where
  | wrongContext (ctx : String) (msg : String)
  | unknownReference (ctx : String) (name : String)
  | parseError (e : ParseErr)
deriving DecidableEq

/-- `_resolve_line` from `dimensions.py` lines 415-419. -/
def _resolve_line (name : String) (dim_map : DimensionMapping) (context : String) :
    Except AppErr SLine :=
  match dget name dim_map.edges with
  | some entry => .ok entry.line
  | none => .error (.unknownReference context name)

/-- `_resolve_point` from `dimensions.py` lines 422-426. -/
def _resolve_point (name : String) (dim_map : DimensionMapping) (context : String) :
    Except AppErr SPoint :=
  match dget name dim_map.points with
  | some entry => .ok entry.point
  | none => .error (.unknownReference context name)

/-- `ConstraintSpec.apply_to_line`: specs that support lines add their
constraint; `Coincident` and `Midpoint` hit the base-class default and
fail with `WrongContext`.  Reference resolution happens before any
mutation, exactly as in the Python methods. -/
def ConstraintSpec.apply_to_line (spec : ConstraintSpec) (sketch : Sketch)
    (line : SLine) (name : String) (dim_map : DimensionMapping) :
    Except AppErr (Sketch × SCon) :=
  match spec with
  | .distance v => .ok (sketch.distance line.p1 line.p2 (v : ℝ))
  | .distanceProj v axis => .ok (sketch.distance_proj line.p1 line.p2 axis (v : ℝ))
  | .parallel o => (_resolve_line o dim_map name).map fun l2 => sketch.parallel line l2
  | .perpendicular o =>
      (_resolve_line o dim_map name).map fun l2 => sketch.perpendicular line l2
  | .vertical => .ok (sketch.vertical line)
  | .horizontal => .ok (sketch.horizontal line)
  | .equal o => (_resolve_line o dim_map name).map fun l2 => sketch.equal line l2
  | .coincident _ => .error (.wrongContext name "requires a point, not a line")
  | .midpoint _ => .error (.wrongContext name "requires a point, not a line")

/-- `ConstraintSpec.apply_to_two_points`: only `Distance` (and the
internal `DistanceProj`) support two unconnected points. -/
def ConstraintSpec.apply_to_two_points (spec : ConstraintSpec) (sketch : Sketch)
    (p1 p2 : SPoint) (name : String) (dim_map : DimensionMapping) :
    Except AppErr (Sketch × SCon) :=
  match spec with
  | .distance v => .ok (sketch.distance p1 p2 (v : ℝ))
  | .distanceProj v axis => .ok (sketch.distance_proj p1 p2 axis (v : ℝ))
  | _ => .error (.wrongContext name "cannot apply between two unconnected points")

/-- `ConstraintSpec.apply_to_point`: only `Coincident` (resolving in the
point registry) and `Midpoint` (resolving in the edge registry). -/
def ConstraintSpec.apply_to_point (spec : ConstraintSpec) (sketch : Sketch)
    (pt : SPoint) (name : String) (dim_map : DimensionMapping) :
    Except AppErr (Sketch × SCon) :=
  match spec with
  | .coincident o => (_resolve_point o dim_map name).map fun p2 => sketch.coincident pt p2
  | .midpoint o => (_resolve_line o dim_map name).map fun l => sketch.midpoint pt l
  | _ => .error (.wrongContext name "requires a line, not a point")

/-- Apply a list of specs in order with a given application method,
aborting at the first error while keeping the sketch mutations already
made (Python appends each constraint to the sketch as it goes; an
exception propagates without undoing them). -/
def applySpecsWith (s : Sketch) (specs : List ConstraintSpec)
    (app : Sketch → ConstraintSpec → Except AppErr (Sketch × SCon)) :
    Sketch × Except AppErr (List SCon) :=
  match specs with
  | [] => (s, .ok [])
  | spec :: rest =>
      match app s spec with
      | .error e => (s, .error e)
      | .ok sc =>
          match applySpecsWith sc.1 rest app with
          | (s2, .ok cs) => (s2, .ok (sc.2 :: cs))
          | (s2, .error e) => (s2, .error e)

/-- `_get_proj_direction` from `dimensions.py` lines 205-223: the unit
projection direction, or none. -/
noncomputable def _get_proj_direction : Dim → Option (ℝ × ℝ)
  | .orthogonal _ alignment =>
      if alignment = 1 then some (1, 0)
      else if alignment = 2 then some (0, 1)
      else none
  | .aligned d =>
      if 0 < hypot (d.«end».x - d.start.x) (d.«end».y - d.start.y) then
        some ((d.«end».x - d.start.x) / hypot (d.«end».x - d.start.x) (d.«end».y - d.start.y),
              (d.«end».y - d.start.y) / hypot (d.«end».x - d.start.x) (d.«end».y - d.start.y))
      else none
  | _ => none

/-- `_make_axis_line` from `dimensions.py` lines 226-230: a construction
line between two fixed points at the origin and at `(dx, dy)`. -/
def _make_axis_line (s : Sketch) (dx dy : ℝ) : Sketch × SLine :=
  let r1 := s.point 0 0 true
  let r2 := r1.1.point dx dy true
  r2.1.line r1.2 r2.2

/-- `_directions_parallel` from `dimensions.py` lines 233-248: whether an
aligned dimension's direction matches a line's direction up to the cross
product tolerance; degenerate directions count as parallel. -/
noncomputable def _directions_parallel (d : DimCommon) (line : SLine)
    (tolerance : ℝ) : Prop :=
  if hypot (d.«end».x - d.start.x) (d.«end».y - d.start.y) = 0 then True
  else if hypot (line.p2.u - line.p1.u) (line.p2.v - line.p1.v) = 0 then True
  else
    |(d.«end».x - d.start.x) / hypot (d.«end».x - d.start.x) (d.«end».y - d.start.y) *
          ((line.p2.v - line.p1.v) / hypot (line.p2.u - line.p1.u) (line.p2.v - line.p1.v)) -
        (d.«end».y - d.start.y) / hypot (d.«end».x - d.start.x) (d.«end».y - d.start.y) *
          ((line.p2.u - line.p1.u) / hypot (line.p2.u - line.p1.u) (line.p2.v - line.p1.v))| <
      tolerance

/-- `isinstance(s, Distance)` over the parsed specs. -/
def isDistanceSpec : ConstraintSpec → Bool
  | .distance _ => true
  | _ => false

/-- The list comprehension of `apply_dimension_constraints` lines
484-488: replace every `Distance` spec by `DistanceProj` along `axis`. -/
def projectSpecs (axis : SLine) (specs : List ConstraintSpec) : List ConstraintSpec :=
  specs.map fun sp =>
    match sp with
    | .distance v => .distanceProj v axis
    | sp => sp

/-- `isinstance(dim, OrthogonalDimension)`. -/
def Dim.isOrthogonalB : Dim → Bool
  | .orthogonal _ _ => true
  | _ => false

/-- `isinstance(dim, AlignedDimension)`. -/
def Dim.isAlignedB : Dim → Bool
  | .aligned _ => true
  | _ => false

/-- The projected-distance preparation of `apply_dimension_constraints`
lines 472-488: when the dimension is orthogonal, or aligned with a bound
edge whose direction differs from the dimension's, and some spec is a
`Distance`, build the axis construction line from the projection
direction and substitute `DistanceProj` for every `Distance`; otherwise
leave the sketch and specs unchanged. -/
noncomputable def projPrep (s : Sketch) (dim : Dim) (d : DimCommon)
    (line : Option SLine) (specs : List ConstraintSpec) :
    Sketch × List ConstraintSpec :=
  if (Dim.isOrthogonalB dim = true ∨
        (Dim.isAlignedB dim = true ∧
          match line with
          | some l => ¬ _directions_parallel d l 1e-6
          | none => False)) ∧
      specs.any isDistanceSpec = true then
    match _get_proj_direction dim with
    | some pd =>
        ((_make_axis_line s pd.1 pd.2).1,
         projectSpecs (_make_axis_line s pd.1 pd.2).2 specs)
    | none => (s, specs)
  else (s, specs)

/-- The aligned/orthogonal branch of the `apply_dimension_constraints`
loop body (lines 462-511): resolve both endpoints, run the
projected-distance preparation (`projPrep`), then dispatch every spec to
the line, the two points, or the single resolved point. -/
noncomputable def applyAlignedLike (s : Sketch) (dim_map : DimensionMapping)
    (tolerance : ℝ) (dim : Dim) (d : DimCommon) (name : String)
    (specs : List ConstraintSpec) : Sketch × Except AppErr (List SCon) :=
  match _find_point (_to_mm d.start.x) (_to_mm d.start.y) dim_map.all_points tolerance,
      _find_point (_to_mm d.«end».x) (_to_mm d.«end».y) dim_map.all_points tolerance with
  | some ps, some pe =>
      match edgeLookup dim_map.edge_index ps.handle pe.handle with
      | some l =>
          applySpecsWith (projPrep s dim d (some l) specs).1
            (projPrep s dim d (some l) specs).2
            fun sk spec => spec.apply_to_line sk l name dim_map
      | none =>
          applySpecsWith (projPrep s dim d none specs).1
            (projPrep s dim d none specs).2
            fun sk spec => spec.apply_to_two_points sk ps pe name dim_map
  | some ps, none =>
      applySpecsWith s specs fun sk spec => spec.apply_to_point sk ps name dim_map
  | none, some pe =>
      applySpecsWith s specs fun sk spec => spec.apply_to_point sk pe name dim_map
  | none, none => (s, .ok [])

/-- The `apply_dimension_constraints` loop body for one dimension
(lines 454-521): skip blank suffixes, compute the context name, parse the
suffix, and dispatch by dimension kind.  The sketch is returned alongside
the error so that mutations made before a failure stay visible. -/
noncomputable def applyDimConstraintsStep (s : Sketch) (dim_map : DimensionMapping)
    (tolerance : ℝ) (dim : Dim) : Sketch × Except AppErr (List SCon) :=
  let suffix := _get_suffix dim
  if (pyStrip suffix).data.isEmpty then (s, .ok [])
  else
    let name :=
      match _extract_name dim with
      | some n => if n.data.isEmpty then "<unnamed>" else n
      | none => "<unnamed>"
    match parse_suffix suffix with
    | .error e => (s, .error (.parseError e))
    | .ok specs =>
      match dim with
      | .aligned d => applyAlignedLike s dim_map tolerance (.aligned d) d name specs
      | .orthogonal d a =>
          applyAlignedLike s dim_map tolerance (.orthogonal d a) d name specs
      | .leader _ startv =>
          match _find_point (_to_mm startv.x) (_to_mm startv.y) dim_map.all_points tolerance with
          | some pt =>
              applySpecsWith s specs fun sk spec => spec.apply_to_point sk pt name dim_map
          | none => (s, .ok [])
      | _ => (s, .ok [])

/-- `apply_dimension_constraints` from `dimensions.py` lines 434-522:
process every dimension in order, collecting the created constraints; an
exception from one dimension propagates immediately, keeping the sketch
mutations already performed. -/
noncomputable def apply_dimension_constraints (s : Sketch) (dims : List Dim)
    (dim_map : DimensionMapping) (tolerance : ℝ) :
    Sketch × Except AppErr (List SCon) :=
  match dims with
  | [] => (s, .ok [])
  | dim :: rest =>
      match applyDimConstraintsStep s dim_map tolerance dim with
      | (s1, .error e) => (s1, .error e)
      | (s1, .ok cs) =>
          match apply_dimension_constraints s1 rest dim_map tolerance with
          | (s2, .ok cs2) => (s2, .ok (cs ++ cs2))
          | (s2, .error e) => (s2, .error e)

/-- A concrete registry for the midpoint dispatch counterexample: the
name `"x"` is registered as a point. -/
def c8Registry : DimensionMapping :=
  { edges := []
    points := [("x", ⟨Dim.radial "" "", "x", ⟨1, 1, 0⟩⟩)]
    all_points := []
    edge_index := [] }

/-- C8 counterexample: `"x"` is a registered point name, yet applying
`m(x)` to an edge fails with `WrongContext` instead of creating a
midpoint constraint. -/
theorem midpoint_on_edge_counterexample :
    dget "x" c8Registry.points = some ⟨Dim.radial "" "", "x", ⟨1, 1, 0⟩⟩ ∧
    (ConstraintSpec.midpoint "x").apply_to_line ⟨3, []⟩ ⟨2, ⟨0, 0, 0⟩, ⟨1, 1, 0⟩⟩
        "n" c8Registry =
      .error (.wrongContext "n" "requires a point, not a line") :=
  ⟨rfl, rfl⟩

/-- C8 amended: a midpoint suffix token applies only to a point, with its
argument resolved in the edge registry; applied to an edge it always
fails with the `WrongContext` default, whatever is registered. -/
theorem midpoint_spec_dispatch (sketch : Sketch) (line : SLine) (pt : SPoint)
    (x name : String) (m : DimensionMapping) :
    (ConstraintSpec.midpoint x).apply_to_line sketch line name m =
      .error (.wrongContext name "requires a point, not a line") ∧
    (ConstraintSpec.midpoint x).apply_to_point sketch pt name m =
      (match dget x m.edges with
       | some entry => .ok (sketch.midpoint pt entry.line)
       | none => .error (.unknownReference name x)) := by
  refine ⟨rfl, ?_⟩
  show (_resolve_line x m name).map _ = _
  unfold _resolve_line
  cases dget x m.edges <;> rfl

/-- A successful `apply_to_line` appends exactly its constraint. -/
theorem apply_to_line_cons (spec : ConstraintSpec) (s : Sketch) (line : SLine)
    (name : String) (m : DimensionMapping) (sc : Sketch × SCon)
    (h : spec.apply_to_line s line name m = .ok sc) :
    sc.1.cons = s.cons ++ [sc.2] := by
  cases spec <;>
    simp only [ConstraintSpec.apply_to_line, _resolve_line, Except.ok.injEq] at h
  case distance v => subst h; rfl
  case distanceProj v axis => subst h; rfl
  case parallel o =>
      rcases hd : dget o m.edges with _ | entry <;> rw [hd] at h <;> simp [Except.map] at h
      subst h; rfl
  case perpendicular o =>
      rcases hd : dget o m.edges with _ | entry <;> rw [hd] at h <;> simp [Except.map] at h
      subst h; rfl
  case coincident o => exact absurd h (by simp)
  case vertical => subst h; rfl
  case horizontal => subst h; rfl
  case equal o =>
      rcases hd : dget o m.edges with _ | entry <;> rw [hd] at h <;> simp [Except.map] at h
      subst h; rfl
  case midpoint o => exact absurd h (by simp)

/-- A successful `apply_to_two_points` appends exactly its constraint. -/
theorem apply_to_two_points_cons (spec : ConstraintSpec) (s : Sketch)
    (p1 p2 : SPoint) (name : String) (m : DimensionMapping) (sc : Sketch × SCon)
    (h : spec.apply_to_two_points s p1 p2 name m = .ok sc) :
    sc.1.cons = s.cons ++ [sc.2] := by
  cases spec <;>
    simp only [ConstraintSpec.apply_to_two_points, Except.ok.injEq] at h
  case distance v => subst h; rfl
  case distanceProj v axis => subst h; rfl
  all_goals exact absurd h (by simp)

/-- A successful `apply_to_point` appends exactly its constraint. -/
theorem apply_to_point_cons (spec : ConstraintSpec) (s : Sketch) (pt : SPoint)
    (name : String) (m : DimensionMapping) (sc : Sketch × SCon)
    (h : spec.apply_to_point s pt name m = .ok sc) :
    sc.1.cons = s.cons ++ [sc.2] := by
  cases spec <;>
    simp only [ConstraintSpec.apply_to_point, _resolve_point, _resolve_line,
      Except.ok.injEq] at h
  case coincident o =>
      rcases hd : dget o m.points with _ | entry <;> rw [hd] at h <;> simp [Except.map] at h
      subst h; rfl
  case midpoint o =>
      rcases hd : dget o m.edges with _ | entry <;> rw [hd] at h <;> simp [Except.map] at h
      subst h; rfl
  all_goals exact absurd h (by simp)

/-- `applySpecsWith` only appends constraints to the sketch. -/
theorem applySpecsWith_cons (specs : List ConstraintSpec)
    (app : Sketch → ConstraintSpec → Except AppErr (Sketch × SCon))
    (happ : ∀ s spec sc, app s spec = .ok sc → sc.1.cons = s.cons ++ [sc.2]) :
    ∀ s : Sketch, ∃ l, (applySpecsWith s specs app).1.cons = s.cons ++ l := by
  induction specs with
  | nil => intro s; exact ⟨[], by simp [applySpecsWith]⟩
  | cons spec rest ih =>
      intro s
      cases ha : app s spec with
      | error e => exact ⟨[], by simp [applySpecsWith, ha]⟩
      | ok sc =>
          obtain ⟨l, hl⟩ := ih sc.1
          rcases hrec : applySpecsWith sc.1 rest app with ⟨s2, r⟩
          rw [hrec] at hl
          have hc : sc.1.cons = s.cons ++ [sc.2] := happ s spec sc ha
          refine ⟨[sc.2] ++ l, ?_⟩
          cases r <;> simp [applySpecsWith, ha, hrec] <;> rw [hl, hc] <;>
            simp [List.append_assoc]

/-- `projPrep` only appends constraints to the sketch. -/
theorem projPrep_cons (s : Sketch) (dim : Dim) (d : DimCommon)
    (line : Option SLine) (specs : List ConstraintSpec) :
    ∃ l0, (projPrep s dim d line specs).1.cons = s.cons ++ l0 := by
  unfold projPrep
  split
  · rcases _get_proj_direction dim with _ | pd
    · exact ⟨[], by simp⟩
    · refine ⟨[.dragged s.nextHandle, .dragged (s.nextHandle + 1)], ?_⟩
      have h : (_make_axis_line s pd.1 pd.2).1.cons =
          (s.cons ++ [SCon.dragged s.nextHandle]) ++
            [SCon.dragged (s.nextHandle + 1)] := rfl
      rw [h, List.append_assoc]
      rfl
  · exact ⟨[], by simp⟩

/-- The aligned/orthogonal application branch only appends constraints. -/
theorem applyAlignedLike_cons (s : Sketch) (m : DimensionMapping) (tol : ℝ)
    (dim : Dim) (d : DimCommon) (name : String) (specs : List ConstraintSpec) :
    ∃ l, (applyAlignedLike s m tol dim d name specs).1.cons = s.cons ++ l := by
  unfold applyAlignedLike
  rcases h1 : _find_point (_to_mm d.start.x) (_to_mm d.start.y) m.all_points tol with _ | ps <;>
    rcases h2 : _find_point (_to_mm d.«end».x) (_to_mm d.«end».y) m.all_points tol with _ | pe
  · exact ⟨[], by simp⟩
  · exact applySpecsWith_cons specs _
      (fun s spec sc h => apply_to_point_cons spec s pe name m sc h) s
  · exact applySpecsWith_cons specs _
      (fun s spec sc h => apply_to_point_cons spec s ps name m sc h) s
  · rcases h3 : edgeLookup m.edge_index ps.handle pe.handle with _ | line <;>
      simp only [h3]
    · obtain ⟨l0, hl0⟩ := projPrep_cons s dim d none specs
      obtain ⟨l1, hl1⟩ := applySpecsWith_cons (projPrep s dim d none specs).2
        (fun sk spec => spec.apply_to_two_points sk ps pe name m)
        (fun sk spec sc h => apply_to_two_points_cons spec sk ps pe name m sc h)
        (projPrep s dim d none specs).1
      exact ⟨l0 ++ l1, by rw [hl1, hl0, List.append_assoc]⟩
    · obtain ⟨l0, hl0⟩ := projPrep_cons s dim d (some line) specs
      obtain ⟨l1, hl1⟩ := applySpecsWith_cons (projPrep s dim d (some line) specs).2
        (fun sk spec => spec.apply_to_line sk line name m)
        (fun sk spec sc h => apply_to_line_cons spec sk line name m sc h)
        (projPrep s dim d (some line) specs).1
      exact ⟨l0 ++ l1, by rw [hl1, hl0, List.append_assoc]⟩

/-- One `apply_dimension_constraints` step only appends constraints. -/
theorem applyDimConstraintsStep_cons (s : Sketch) (m : DimensionMapping)
    (tol : ℝ) (dim : Dim) :
    ∃ l, (applyDimConstraintsStep s m tol dim).1.cons = s.cons ++ l := by
  unfold applyDimConstraintsStep
  by_cases hb : (pyStrip (_get_suffix dim)).data.isEmpty = true
  · rw [if_pos hb]
    exact ⟨[], by simp⟩
  · rw [if_neg hb]
    rcases hp : parse_suffix (_get_suffix dim) with e | specs <;> simp only [hp]
    · exact ⟨[], by simp⟩
    · rcases dim with d | ⟨d, a⟩ | ⟨t, startv⟩ | _ | _
      · exact applyAlignedLike_cons s m tol _ d _ specs
      · exact applyAlignedLike_cons s m tol _ d _ specs
      · rcases hf : _find_point (_to_mm startv.x) (_to_mm startv.y) m.all_points tol
            with _ | pt <;> simp only [hf]
        · exact ⟨[], by simp⟩
        · exact applySpecsWith_cons specs _
            (fun s spec sc h => apply_to_point_cons spec s pt _ m sc h) s
      · exact ⟨[], by simp⟩
      · exact ⟨[], by simp⟩

/-- C9 amended: an error while applying one dimension's specs aborts the
whole pass with that error (later dimensions are not processed), but the
abort is not transactional: every constraint created before the failure
— in particular all constraints of the earlier, successful dimensions —
remains in the sketch. -/
theorem apply_dimension_constraints_abort (s : Sketch) (m : DimensionMapping)
    (tol : ℝ) (pre : List Dim) (d : Dim) (post : List Dim) (s1 s2 : Sketch)
    (cs1 : List SCon) (e : AppErr)
    (hpre : apply_dimension_constraints s pre m tol = (s1, .ok cs1))
    (hd : applyDimConstraintsStep s1 m tol d = (s2, .error e)) :
    apply_dimension_constraints s (pre ++ d :: post) m tol = (s2, .error e) ∧
    (∃ l, s2.cons = s1.cons ++ l) := by
  constructor
  · induction pre generalizing s cs1 with
    | nil =>
        simp only [apply_dimension_constraints, Prod.mk.injEq] at hpre
        obtain ⟨rfl, -⟩ := hpre
        simp [apply_dimension_constraints, hd]
    | cons p pre ih =>
        rw [List.cons_append]
        unfold apply_dimension_constraints at hpre ⊢
        rcases hstep : applyDimConstraintsStep s m tol p with ⟨sa, ra⟩
        cases ra with
        | error e2 => rw [hstep] at hpre; simp at hpre
        | ok csa =>
            rw [hstep] at hpre
            dsimp only at hpre
            rcases hr : apply_dimension_constraints sa pre m tol with ⟨sb, rb⟩
            rw [hr] at hpre
            cases rb with
            | error e2 => simp at hpre
            | ok csb =>
                simp only [Prod.mk.injEq, Except.ok.injEq] at hpre
                obtain ⟨rfl, -⟩ := hpre
                dsimp only
                rw [ih sa csb hr]
  · obtain ⟨l, hl⟩ := applyDimConstraintsStep_cons s1 m tol d
    rw [hd] at hl
    exact ⟨l, hl⟩

/-- Concrete sketch point at the origin (handle 0). -/
def c9p1 : SPoint := ⟨0, 0, 0⟩

/-- Concrete sketch point at `(1, 0)` mm (handle 1). -/
def c9p2 : SPoint := ⟨1, 1, 0⟩

/-- A concrete registry: point `"x"` bound to `c9p2`, and the two sketch
points available for position lookup. -/
def c9Registry : DimensionMapping :=
  { edges := []
    points := [("x", ⟨Dim.radial "" "", "x", c9p2⟩)]
    all_points := [c9p1, c9p2]
    edge_index := [] }

/-- A leader dimension named `nm` at the origin whose suffix applies
`c(x)` — a valid coincident constraint against the registry point. -/
def c9dim1 : Dim := .leader "nm,c(x)" ⟨0, 0⟩

/-- An aligned dimension whose suffix `"bogus"` fails to parse. -/
def c9dim2 : Dim := .aligned ⟨"", "bogus", ⟨0, 0⟩, ⟨0, 0⟩⟩

/-- The initial sketch for the partial-application scenario. -/
def c9s0 : Sketch := ⟨3, []⟩

/-- Position lookup for the origin resolves to `c9p1` (distance zero). -/
theorem c9find :
    _find_point (_to_mm 0) (_to_mm 0) c9Registry.all_points 1e-4 = some c9p1 := by
  have h : hypot (c9p1.u - _to_mm 0) (c9p1.v - _to_mm 0) ≤ 1e-4 := by
    norm_num [c9p1, hypot, _to_mm, Real.sqrt_zero]
  show _find_point (_to_mm 0) (_to_mm 0) [c9p1, c9p2] 1e-4 = some c9p1
  simp [_find_point, h]

/-- Applying `c9dim1` adds the coincident constraint to the sketch. -/
theorem c9step1 :
    applyDimConstraintsStep c9s0 c9Registry 1e-4 c9dim1 =
      (⟨3, [SCon.coincident 0 1]⟩, .ok [SCon.coincident 0 1]) := by
  have h1 : applyDimConstraintsStep c9s0 c9Registry 1e-4 c9dim1 =
      (match _find_point (_to_mm 0) (_to_mm 0) c9Registry.all_points 1e-4 with
       | some pt =>
           applySpecsWith c9s0 [ConstraintSpec.coincident "x"]
             fun sk spec => spec.apply_to_point sk pt "nm" c9Registry
       | none => (c9s0, .ok [])) := rfl
  rw [h1, c9find]
  rfl

/-- Applying `c9dim2` fails with the parse error, leaving any sketch
unchanged. -/
theorem c9step2 (s : Sketch) :
    applyDimConstraintsStep s c9Registry 1e-4 c9dim2 =
      (s, .error (.parseError (.unrecognizedToken "bogus"))) := rfl

/-- C9 counterexample: on `[c9dim1, c9dim2]` the pass aborts with
`c9dim2`'s parse error, yet the sketch has gained `c9dim1`'s coincident
constraint — partial application did take place. -/
theorem apply_dimension_constraints_partial_counterexample :
    apply_dimension_constraints c9s0 [c9dim1, c9dim2] c9Registry 1e-4 =
      (⟨3, [SCon.coincident 0 1]⟩,
       .error (.parseError (.unrecognizedToken "bogus"))) ∧
    (⟨3, [SCon.coincident 0 1]⟩ : Sketch).cons ≠ c9s0.cons := by
  constructor
  · show (match applyDimConstraintsStep c9s0 c9Registry 1e-4 c9dim1 with
          | (s1, .error e) => (s1, Except.error e)
          | (s1, .ok cs) =>
              match apply_dimension_constraints s1 [c9dim2] c9Registry 1e-4 with
              | (s2, .ok cs2) => (s2, Except.ok (cs ++ cs2))
              | (s2, .error e) => (s2, Except.error e)) = _
    rw [c9step1]
    rfl
  · simp [c9s0]

/-- C9 witness for the amended abort theorem: with `pre = [c9dim1]` the
pass on `[c9dim1, c9dim2]` aborts with the parse error while keeping the
coincident constraint from `c9dim1`. -/
theorem apply_dimension_constraints_abort_witness :
    apply_dimension_constraints c9s0 ([c9dim1] ++ c9dim2 :: []) c9Registry 1e-4 =
      (⟨3, [SCon.coincident 0 1]⟩,
       .error (.parseError (.unrecognizedToken "bogus"))) ∧
    (∃ l, (⟨3, [SCon.coincident 0 1]⟩ : Sketch).cons =
      (⟨3, [SCon.coincident 0 1]⟩ : Sketch).cons ++ l) := by
  have hpre : apply_dimension_constraints c9s0 [c9dim1] c9Registry 1e-4 =
      (⟨3, [SCon.coincident 0 1]⟩, .ok [SCon.coincident 0 1]) := by
    show (match applyDimConstraintsStep c9s0 c9Registry 1e-4 c9dim1 with
          | (s1, .error e) => (s1, Except.error e)
          | (s1, .ok cs) =>
              match apply_dimension_constraints s1 [] c9Registry 1e-4 with
              | (s2, .ok cs2) => (s2, Except.ok (cs ++ cs2))
              | (s2, .error e) => (s2, Except.error e)) = _
    rw [c9step1]
    rfl
  exact apply_dimension_constraints_abort c9s0 c9Registry 1e-4 [c9dim1] c9dim2 []
    ⟨3, [SCon.coincident 0 1]⟩ ⟨3, [SCon.coincident 0 1]⟩ [SCon.coincident 0 1]
    (.parseError (.unrecognizedToken "bogus")) hpre (c9step2 _)

/-- If an aligned dimension's direction is not parallel to a line, the
dimension's start→end vector has positive length (the degenerate case
counts as parallel). -/
theorem not_parallel_pos_len (d : DimCommon) (l : SLine) (t : ℝ)
    (h : ¬ _directions_parallel d l t) :
    0 < hypot (d.«end».x - d.start.x) (d.«end».y - d.start.y) := by
  by_cases hz : hypot (d.«end».x - d.start.x) (d.«end».y - d.start.y) = 0
  · exact absurd (by unfold _directions_parallel; rw [if_pos hz]; trivial) h
  · exact lt_of_le_of_ne (by unfold hypot; exact Real.sqrt_nonneg _) (Ne.symm hz)

/-- C10: when both endpoints of a dimension resolve to sketch points, the
`Distance` specs of an orthogonal dimension with X/Y axis alignment, and
of an aligned dimension not parallel to the edge it binds, are replaced
before application by projected distances along a freshly created
construction line between two dragged points in the dimension's axis
direction — `(1, 0)` / `(0, 1)` for orthogonal X/Y, the normalized
start→end vector for aligned — while in the remaining cases (orthogonal
with another alignment, aligned parallel to its edge) the specs are
applied unchanged, `Distance` being a plain point-point distance. -/
theorem distance_specs_projected (s : Sketch) (m : DimensionMapping) (tol : ℝ)
    (d : DimCommon) (name : String) (specs : List ConstraintSpec) (ps pe : SPoint)
    (hs : _find_point (_to_mm d.start.x) (_to_mm d.start.y) m.all_points tol = some ps)
    (he : _find_point (_to_mm d.«end».x) (_to_mm d.«end».y) m.all_points tol = some pe) :
    (specs.any isDistanceSpec = true →
      applyAlignedLike s m tol (.orthogonal d 1) d name specs =
        (match edgeLookup m.edge_index ps.handle pe.handle with
         | some l =>
             applySpecsWith (_make_axis_line s 1 0).1
               (projectSpecs (_make_axis_line s 1 0).2 specs)
               fun sk spec => spec.apply_to_line sk l name m
         | none =>
             applySpecsWith (_make_axis_line s 1 0).1
               (projectSpecs (_make_axis_line s 1 0).2 specs)
               fun sk spec => spec.apply_to_two_points sk ps pe name m)) ∧
    (specs.any isDistanceSpec = true →
      applyAlignedLike s m tol (.orthogonal d 2) d name specs =
        (match edgeLookup m.edge_index ps.handle pe.handle with
         | some l =>
             applySpecsWith (_make_axis_line s 0 1).1
               (projectSpecs (_make_axis_line s 0 1).2 specs)
               fun sk spec => spec.apply_to_line sk l name m
         | none =>
             applySpecsWith (_make_axis_line s 0 1).1
               (projectSpecs (_make_axis_line s 0 1).2 specs)
               fun sk spec => spec.apply_to_two_points sk ps pe name m)) ∧
    (∀ a : ℕ, a ≠ 1 → a ≠ 2 →
      applyAlignedLike s m tol (.orthogonal d a) d name specs =
        (match edgeLookup m.edge_index ps.handle pe.handle with
         | some l => applySpecsWith s specs fun sk spec => spec.apply_to_line sk l name m
         | none =>
             applySpecsWith s specs fun sk spec =>
               spec.apply_to_two_points sk ps pe name m)) ∧
    (∀ l : SLine, edgeLookup m.edge_index ps.handle pe.handle = some l →
      ¬ _directions_parallel d l 1e-6 → specs.any isDistanceSpec = true →
      applyAlignedLike s m tol (.aligned d) d name specs =
        applySpecsWith
          (_make_axis_line s
            ((d.«end».x - d.start.x) / hypot (d.«end».x - d.start.x) (d.«end».y - d.start.y))
            ((d.«end».y - d.start.y) /
              hypot (d.«end».x - d.start.x) (d.«end».y - d.start.y))).1
          (projectSpecs
            (_make_axis_line s
              ((d.«end».x - d.start.x) /
                hypot (d.«end».x - d.start.x) (d.«end».y - d.start.y))
              ((d.«end».y - d.start.y) /
                hypot (d.«end».x - d.start.x) (d.«end».y - d.start.y))).2 specs)
          fun sk spec => spec.apply_to_line sk l name m) ∧
    (∀ l : SLine, edgeLookup m.edge_index ps.handle pe.handle = some l →
      _directions_parallel d l 1e-6 →
      applyAlignedLike s m tol (.aligned d) d name specs =
        applySpecsWith s specs fun sk spec => spec.apply_to_line sk l name m) ∧
    (∀ dx dy : ℝ,
      (_make_axis_line s dx dy).1.cons =
        s.cons ++ [SCon.dragged (_make_axis_line s dx dy).2.p1.handle,
                   SCon.dragged (_make_axis_line s dx dy).2.p2.handle] ∧
      (_make_axis_line s dx dy).2.p1.u = 0 ∧ (_make_axis_line s dx dy).2.p1.v = 0 ∧
      (_make_axis_line s dx dy).2.p2.u = dx ∧ (_make_axis_line s dx dy).2.p2.v = dy) ∧
    (∀ (sk : Sketch) (l axis : SLine) (v : ℚ),
      (ConstraintSpec.distanceProj v axis).apply_to_line sk l name m =
        .ok (sk.distance_proj l.p1 l.p2 axis (v : ℝ)) ∧
      (ConstraintSpec.distance v).apply_to_line sk l name m =
        .ok (sk.distance l.p1 l.p2 (v : ℝ))) := by
  refine ⟨?_, ?_, ?_, ?_, ?_, ?_, fun sk l axis v => ⟨rfl, rfl⟩⟩
  · intro hany
    unfold applyAlignedLike
    simp only [hs, he]
    have hproj : ∀ line, projPrep s (.orthogonal d 1) d line specs =
        ((_make_axis_line s 1 0).1, projectSpecs (_make_axis_line s 1 0).2 specs) := by
      intro line
      unfold projPrep
      rw [if_pos ⟨Or.inl rfl, hany⟩]
      rfl
    rcases h3 : edgeLookup m.edge_index ps.handle pe.handle with _ | l <;>
      simp only [h3] <;> rw [hproj]
  · intro hany
    unfold applyAlignedLike
    simp only [hs, he]
    have hproj : ∀ line, projPrep s (.orthogonal d 2) d line specs =
        ((_make_axis_line s 0 1).1, projectSpecs (_make_axis_line s 0 1).2 specs) := by
      intro line
      unfold projPrep
      rw [if_pos ⟨Or.inl rfl, hany⟩]
      rfl
    rcases h3 : edgeLookup m.edge_index ps.handle pe.handle with _ | l <;>
      simp only [h3] <;> rw [hproj]
  · intro a ha1 ha2
    unfold applyAlignedLike
    simp only [hs, he]
    have hproj : ∀ line, projPrep s (.orthogonal d a) d line specs = (s, specs) := by
      intro line
      unfold projPrep
      split
      · have hpd : _get_proj_direction (.orthogonal d a) = none := by
          show (if a = 1 then some ((1 : ℝ), (0 : ℝ))
              else if a = 2 then some (0, 1) else none) = none
          rw [if_neg ha1, if_neg ha2]
        rw [hpd]
      · rfl
    rcases h3 : edgeLookup m.edge_index ps.handle pe.handle with _ | l <;>
      simp only [h3] <;> rw [hproj]
  · intro l h3 hnp hany
    have hlen := not_parallel_pos_len d l 1e-6 hnp
    unfold applyAlignedLike
    simp only [hs, he, h3]
    have hpd : _get_proj_direction (.aligned d) =
        some ((d.«end».x - d.start.x) / hypot (d.«end».x - d.start.x) (d.«end».y - d.start.y),
              (d.«end».y - d.start.y) /
                hypot (d.«end».x - d.start.x) (d.«end».y - d.start.y)) := by
      show (if 0 < hypot (d.«end».x - d.start.x) (d.«end».y - d.start.y) then
            some ((d.«end».x - d.start.x) / hypot (d.«end».x - d.start.x) (d.«end».y - d.start.y),
                  (d.«end».y - d.start.y) / hypot (d.«end».x - d.start.x) (d.«end».y - d.start.y))
          else none) = _
      rw [if_pos hlen]
    have hproj : projPrep s (.aligned d) d (some l) specs =
        ((_make_axis_line s
            ((d.«end».x - d.start.x) / hypot (d.«end».x - d.start.x) (d.«end».y - d.start.y))
            ((d.«end».y - d.start.y) /
              hypot (d.«end».x - d.start.x) (d.«end».y - d.start.y))).1,
         projectSpecs
           (_make_axis_line s
             ((d.«end».x - d.start.x) /
               hypot (d.«end».x - d.start.x) (d.«end».y - d.start.y))
             ((d.«end».y - d.start.y) /
               hypot (d.«end».x - d.start.x) (d.«end».y - d.start.y))).2 specs) := by
      unfold projPrep
      rw [if_pos ⟨Or.inr ⟨rfl, hnp⟩, hany⟩, hpd]
    rw [hproj]
  · intro l h3 hpar
    unfold applyAlignedLike
    simp only [hs, he, h3]
    have hproj : projPrep s (.aligned d) d (some l) specs = (s, specs) := by
      unfold projPrep
      rw [if_neg]
      rintro ⟨hor, -⟩
      rcases hor with hfalse | ⟨-, hnp⟩
      · exact absurd hfalse (by simp [Dim.isAlignedB, Dim.isOrthogonalB])
      · exact hnp hpar
    rw [hproj]
  · intro dx dy
    refine ⟨?_, rfl, rfl, rfl, rfl⟩
    have h : (_make_axis_line s dx dy).1.cons =
        (s.cons ++ [SCon.dragged s.nextHandle]) ++
          [SCon.dragged (s.nextHandle + 1)] := rfl
    rw [h, List.append_assoc]
    rfl

/-- An orthogonal X-axis dimension over the nanometre span
`(0,0) → (1000000, 0)` named `n` with suffix `=7mm`. -/
def c10d : DimCommon := ⟨"n:", "=7mm", ⟨0, 0⟩, ⟨1000000, 0⟩⟩

/-- The sketch line joining the two concrete points. -/
def c10line : SLine := ⟨2, c9p1, c9p2⟩

/-- A registry binding the pair of handles `(0, 1)` to `c10line`. -/
def c10Registry : DimensionMapping :=
  { edges := []
    points := []
    all_points := [c9p1, c9p2]
    edge_index := [((0, 1), c10line)] }

/-- The dimension's start position resolves to `c9p1`. -/
theorem c10find_start :
    _find_point (_to_mm c10d.start.x) (_to_mm c10d.start.y)
      c10Registry.all_points 1e-4 = some c9p1 := c9find

/-- The dimension's end position (1 mm right) resolves to `c9p2`,
skipping `c9p1` which is 1 mm away. -/
theorem c10find_end :
    _find_point (_to_mm c10d.«end».x) (_to_mm c10d.«end».y)
      c10Registry.all_points 1e-4 = some c9p2 := by
  have hneg : ¬ (hypot (c9p1.u - _to_mm 1000000) (c9p1.v - _to_mm 0) ≤ 1e-4) := by
    norm_num [c9p1, hypot, _to_mm, Real.sqrt_one]
  have hok : hypot (c9p2.u - _to_mm 1000000) (c9p2.v - _to_mm 0) ≤ 1e-4 := by
    norm_num [c9p2, hypot, _to_mm, Real.sqrt_zero]
  show _find_point (_to_mm 1000000) (_to_mm 0) [c9p1, c9p2] 1e-4 = some c9p2
  simp [_find_point, hneg, hok]

/-- C10 witness: on the concrete orthogonal X-axis dimension with suffix
`=7mm`, the distance spec is applied as a projected distance along a
fresh `(1, 0)` axis line. -/
theorem distance_specs_projected_witness :
    applyAlignedLike c9s0 c10Registry 1e-4 (.orthogonal c10d 1) c10d "n"
        [ConstraintSpec.distance 7] =
      (match edgeLookup c10Registry.edge_index c9p1.handle c9p2.handle with
       | some l =>
           applySpecsWith (_make_axis_line c9s0 1 0).1
             (projectSpecs (_make_axis_line c9s0 1 0).2 [ConstraintSpec.distance 7])
             fun sk spec => spec.apply_to_line sk l "n" c10Registry
       | none =>
           applySpecsWith (_make_axis_line c9s0 1 0).1
             (projectSpecs (_make_axis_line c9s0 1 0).2 [ConstraintSpec.distance 7])
             fun sk spec => spec.apply_to_two_points sk c9p1 c9p2 "n" c10Registry) :=
  (distance_specs_projected c9s0 c10Registry 1e-4 c10d "n" [ConstraintSpec.distance 7]
    c9p1 c9p2 c10find_start c10find_end).1 rfl
